import Mathlib

set_option maxRecDepth 100000

/-!
Verification development for the weather-loop repository.

The definitions below are shallow embeddings of the repository's source:
* the Cloudflare worker tile proxy (`worker.ts`): `workerFetch`, `handleCors`;
* the NOAA GOES image API client (`src/lib/goesApi.ts`): `fetchAvailableImages`
  and its directory-listing scanner;
* the loop-loading hook (`useWeatherLoop.ts`): `loadFramesRun`;
* the map view timestamp formatting and tile preloading (`MapView.tsx`):
  `formatGibsTimestamp`, `iemTimestamp`, `tilesToPreload`, `scrubTriggers`.

Machine integers do not overflow in any of the modelled code paths, so `Nat`
is used throughout; fallible upstream calls are modelled by explicit oracle
arguments (`UpstreamResult`, `DirOutcome`).
-/

/-- An incoming HTTP request as seen by the worker: method, URL path, query
string (`url.search`, including the leading `?` when non-empty), and the
`Origin` and `Accept` request headers (absent headers are `none`). -/
structure WRequest where
  method : String
  path : String
  search : String
  origin : Option String
  accept : Option String
deriving DecidableEq, Repr

/-- The response fields relevant to the worker's behaviour: status, body and
the headers the worker reads or writes.  A header that was never set is
`none`. -/
structure WResponse where
  status : Nat
  body : String
  xCache : Option String := none
  cacheControl : Option String := none
  acao : Option String := none
  acaMethods : Option String := none
  acaHeaders : Option String := none
  acaMaxAge : Option String := none
deriving DecidableEq, Repr

/-- A stored edge-cache value: the cached response's status, body and
`Cache-Control` header (the worker stores the full cloned response). -/
structure CacheEntry where
  status : Nat
  body : String
  cacheControl : Option String := none
deriving DecidableEq, Repr

/-- The edge cache, keyed by the fully resolved upstream URL.  `cachePut`
prepends, so a fresh entry shadows any older entry for the same key, which
matches `cache.put` overwriting. -/
abbrev Cache := List (String × CacheEntry)

/-- Worker environment bindings; `ALLOWED_ORIGINS` may be unset at runtime. -/
structure Env where
  allowedOrigins : Option String
deriving DecidableEq, Repr

/-- Outcome of the single upstream `fetch` a request may perform: an HTTP
response with some status and body, or a transport failure (the `catch`
branch). -/
inductive UpstreamResult where
  | resp (status : Nat) (body : String)
  | netError (msg : String)
deriving DecidableEq, Repr

/-- `UPSTREAMS` table from the worker: provider id to upstream base URL. -/
def upstreamBase (provider : String) : Option String :=
  if provider = "rainviewer" then some "https://tilecache.rainviewer.com"
  else if provider = "iem" then some "https://mesonet.agron.iastate.edu"
  else if provider = "gibs" then some "https://gibs.earthdata.nasa.gov"
  else none

/-- `Object.keys(UPSTREAMS)` in declaration order. -/
def upstreamIds : List String := ["rainviewer", "iem", "gibs"]

/-- `CACHE_TTLS` table from the worker (seconds). -/
def cacheTtl (provider : String) : Option Nat :=
  if provider = "rainviewer" then some 300
  else if provider = "iem" then some 300
  else if provider = "gibs" then some 600
  else none

/-- Body of the `/health` response:
`JSON.stringify({status: "ok", upstreams: Object.keys(UPSTREAMS)})`. -/
def healthBody : String :=
  "\x7b\"status\":\"ok\",\"upstreams\":[\"rainviewer\",\"iem\",\"gibs\"]\x7d"

/-- The path match `/^\/([^\/]+)(\/.*)?$/`: a leading slash, a non-empty
first segment without slashes (the provider id), and the rest of the path
(empty or starting with a slash). -/
def parsePath (path : String) : Option (String × String) :=
  match path.data with
  | [] => none
  | c :: cs =>
    if c = '/' then
      let seg := cs.takeWhile (fun ch => ch ≠ '/')
      if seg.isEmpty then none
      else some (String.mk seg, String.mk (cs.drop seg.length))
    else none

/-- JS `String.prototype.split(",")` on the character list: `""` splits to
`[""]`, and separators at the ends produce empty fields, as in JS. -/
def splitComma : List Char → List (List Char)
  | [] => [[]]
  | c :: rest =>
    match splitComma rest with
    | [] => [[c]]
    | g :: gs => if c = ',' then [] :: g :: gs else (c :: g) :: gs

/-- JS `String.prototype.split(",")`. -/
def splitCommaStr (s : String) : List String :=
  (splitComma s.data).map (fun g => String.mk g)

/-- Drop leading whitespace characters. -/
def dropLeadingWs : List Char → List Char
  | [] => []
  | c :: rest => if c.isWhitespace then dropLeadingWs rest else c :: rest

/-- JS `String.prototype.trim`: strip whitespace from both ends. -/
def trimString (s : String) : String :=
  String.mk (List.reverse (dropLeadingWs (List.reverse (dropLeadingWs s.data))))

/-- JS `String.prototype.startsWith`. -/
def startsWithStr (s pre : String) : Bool :=
  pre.data.isPrefixOf s.data

/-- The parsed allow-list: `env.ALLOWED_ORIGINS?.split(",") || []`. -/
def allowListOf (env : Env) : List String :=
  match env.allowedOrigins with
  | some s => splitCommaStr s
  | none => []

/-- `handleCors` from the worker: computes the `Access-Control-Allow-Origin`
header from the request origin and the comma-separated allow-list, and sets
the three fixed CORS headers on every response. -/
def handleCors (req : WRequest) (env : Env) (r : WResponse) : WResponse :=
  let origin := req.origin.getD ""
  let allowedOrigins := allowListOf env
  let isAllowed : Bool :=
    (origin == "") || allowedOrigins.any (fun allowed => startsWithStr origin (trimString allowed))
  let acao :=
    if isAllowed && (origin != "") then some origin
    else if origin == "" then some "*"
    else r.acao
  { r with
    acao := acao
    acaMethods := some "GET, OPTIONS"
    acaHeaders := some "Content-Type"
    acaMaxAge := some "86400" }

/-- JS `Array.prototype.join(", ")`. -/
def joinComma : List String → String
  | [] => ""
  | [s] => s
  | s :: rest => s ++ ", " ++ joinComma rest

/-- `cache.match` on the upstream-URL key: first entry for the key wins. -/
def cacheMatch (c : Cache) (key : String) : Option CacheEntry :=
  match c with
  | [] => none
  | (k, e) :: rest => if k = key then some e else cacheMatch rest key

/-- `cache.put`: a fresh entry shadows any older one for the same key. -/
def cachePut (c : Cache) (key : String) (e : CacheEntry) : Cache :=
  (key, e) :: c

/-- The worker's `fetch(request, env)` handler.  `up` is the outcome the
single upstream `fetch` would have, consulted only when the handler reaches
the cache-miss branch.  Returns the response and the cache after the request
(the `cache.put` of the miss branch included). -/
def workerFetch (env : Env) (cache : Cache) (req : WRequest) (up : UpstreamResult) :
    WResponse × Cache :=
  if req.method == "OPTIONS" then
    (handleCors req env { status := 204, body := "" }, cache)
  else if req.path == "/" || req.path == "/health" then
    (handleCors req env { status := 200, body := healthBody }, cache)
  else
    match parsePath req.path with
    | none => (handleCors req env { status := 400, body := "Invalid path" }, cache)
    | some (provider, upstreamPath) =>
      match upstreamBase provider with
      | none =>
        (handleCors req env
          { status := 400
            body := "Unknown provider: " ++ provider ++ ". Valid: " ++ joinComma upstreamIds },
          cache)
      | some base =>
        let upstreamUrl := base ++ upstreamPath ++ req.search
        match cacheMatch cache upstreamUrl with
        | some entry =>
          (handleCors req env
            { status := entry.status, body := entry.body
              cacheControl := entry.cacheControl, xCache := some "HIT" },
            cache)
        | none =>
          match up with
          | .netError msg =>
            (handleCors req env { status := 502, body := "Fetch error: " ++ msg }, cache)
          | .resp st body =>
            if st < 200 || 299 < st then
              (handleCors req env
                { status := st, body := "Upstream error: " ++ Nat.repr st }, cache)
            else
              let ttl := (cacheTtl provider).getD 300
              let cc := some ("public, max-age=" ++ Nat.repr ttl)
              (handleCors req env
                { status := st, body := body, cacheControl := cc, xCache := some "MISS" },
               cachePut cache upstreamUrl { status := st, body := body, cacheControl := cc })

/-- The edge-cache key a request resolves to, when the request reaches the
cache logic at all: not a preflight, not a health check, a parsable path and
a known provider.  Mirrors the branch structure of `workerFetch`. -/
def keyOf (req : WRequest) : Option String :=
  if req.method == "OPTIONS" then none
  else if req.path == "/" || req.path == "/health" then none
  else
    match parsePath req.path with
    | none => none
    | some (provider, upstreamPath) =>
      match upstreamBase provider with
      | none => none
      | some base => some (base ++ upstreamPath ++ req.search)

/-- `Response.ok`: status in the inclusive range 200–299. -/
def is2xx (status : Nat) : Prop := 200 ≤ status ∧ status ≤ 299

instance (status : Nat) : Decidable (is2xx status) := by
  unfold is2xx; infer_instance

/-- Every entry of the cache stores a success status (the worker only ever
stores `ok` upstream responses, so this holds along any run from an empty
cache). -/
def cacheOk (c : Cache) : Prop := ∀ kv ∈ c, is2xx kv.2.status

/-- Run a list of (request, upstream outcome) steps through the worker,
returning the final cache. -/
def execCache (env : Env) : Cache → List (WRequest × UpstreamResult) → Cache
  | c, [] => c
  | c, s :: rest => execCache env (workerFetch env c s.1 s.2).2 rest

/-- No step of the run produces a success (2xx) response for cache key `U`. -/
def noSuccessFor (env : Env) (U : String) : Cache → List (WRequest × UpstreamResult) → Prop
  | _, [] => True
  | c, s :: rest =>
    (keyOf s.1 = some U → ¬ is2xx (workerFetch env c s.1 s.2).1.status)
    ∧ noSuccessFor env U (workerFetch env c s.1 s.2).2 rest

/-! ### Basic lemmas about the worker model -/

lemma handleCors_status (req : WRequest) (env : Env) (r : WResponse) :
    (handleCors req env r).status = r.status := rfl

lemma handleCors_body (req : WRequest) (env : Env) (r : WResponse) :
    (handleCors req env r).body = r.body := rfl

lemma handleCors_xCache (req : WRequest) (env : Env) (r : WResponse) :
    (handleCors req env r).xCache = r.xCache := rfl

lemma cacheMatch_put_self (c : Cache) (k : String) (e : CacheEntry) :
    cacheMatch (cachePut c k e) k = some e := by
  simp [cacheMatch, cachePut]

lemma cacheMatch_put_other (c : Cache) (k k' : String) (e : CacheEntry) (h : k ≠ k') :
    cacheMatch (cachePut c k e) k' = cacheMatch c k' := by
  simp [cacheMatch, cachePut, h]

lemma cacheMatch_mem {c : Cache} {k : String} {e : CacheEntry}
    (h : cacheMatch c k = some e) : (k, e) ∈ c := by
  induction c with
  | nil => simp [cacheMatch] at h
  | cons kv rest ih =>
    obtain ⟨k', e'⟩ := kv
    by_cases hk : k' = k
    · subst hk
      simp [cacheMatch] at h
      subst h
      exact List.mem_cons_self _ _
    · rw [cacheMatch, if_neg hk] at h
      exact List.mem_cons_of_mem _ (ih h)

/-- Inversion of `keyOf`: a request with a cache key is a non-preflight,
non-health request whose path parses to a known provider. -/
lemma keyOf_inv {req : WRequest} {U : String} (h : keyOf req = some U) :
    ¬ (req.method == "OPTIONS") = true
    ∧ ¬ (req.path == "/" || req.path == "/health") = true
    ∧ ∃ provider upstreamPath base,
        parsePath req.path = some (provider, upstreamPath)
        ∧ upstreamBase provider = some base
        ∧ U = base ++ upstreamPath ++ req.search := by
  unfold keyOf at h
  by_cases h1 : (req.method == "OPTIONS") = true
  · simp [h1] at h
  · by_cases h2 : (req.path == "/" || req.path == "/health") = true
    · simp [h1, h2] at h
    · refine ⟨h1, h2, ?_⟩
      rw [if_neg h1, if_neg h2] at h
      cases hparse : parsePath req.path with
      | none => simp only [hparse] at h; exact Option.noConfusion h
      | some pr =>
        obtain ⟨provider, upath⟩ := pr
        simp only [hparse] at h
        cases hbase : upstreamBase provider with
        | none => simp only [hbase] at h; exact Option.noConfusion h
        | some base =>
          simp only [hbase, Option.some.injEq] at h
          exact ⟨provider, upath, base, rfl, hbase, h.symm⟩

/-- For a request with cache key `U` and a warm cache, the worker replays the
stored entry, annotates it `X-Cache: HIT`, and leaves the cache unchanged. -/
lemma workerFetch_hit {env : Env} {c : Cache} {req : WRequest} {up : UpstreamResult}
    {U : String} {entry : CacheEntry}
    (hk : keyOf req = some U) (hl : cacheMatch c U = some entry) :
    workerFetch env c req up =
      (handleCors req env
        { status := entry.status, body := entry.body
          cacheControl := entry.cacheControl, xCache := some "HIT" }, c) := by
  obtain ⟨h1, h2, provider, upath, base, hparse, hbase, hU⟩ := keyOf_inv hk
  unfold workerFetch
  rw [if_neg h1, if_neg h2]
  simp only [hparse, hbase, ← hU, hl]

/-- Cache miss with a transport failure: 502, cache unchanged. -/
lemma workerFetch_neterr {env : Env} {c : Cache} {req : WRequest} {msg : String}
    {U : String} (hk : keyOf req = some U) (hl : cacheMatch c U = none) :
    workerFetch env c req (.netError msg) =
      (handleCors req env { status := 502, body := "Fetch error: " ++ msg }, c) := by
  obtain ⟨h1, h2, provider, upath, base, hparse, hbase, hU⟩ := keyOf_inv hk
  unfold workerFetch
  rw [if_neg h1, if_neg h2]
  simp only [hparse, hbase, ← hU, hl]

/-- Cache miss with a non-2xx upstream response: the status is forwarded, the
body is replaced by a synthetic message, and nothing is stored. -/
lemma workerFetch_uperr {env : Env} {c : Cache} {req : WRequest} {st : Nat} {b : String}
    {U : String} (hk : keyOf req = some U) (hl : cacheMatch c U = none)
    (hst : st < 200 ∨ 299 < st) :
    workerFetch env c req (.resp st b) =
      (handleCors req env { status := st, body := "Upstream error: " ++ Nat.repr st }, c) := by
  obtain ⟨h1, h2, provider, upath, base, hparse, hbase, hU⟩ := keyOf_inv hk
  unfold workerFetch
  rw [if_neg h1, if_neg h2]
  simp only [hparse, hbase, ← hU, hl]
  rw [if_pos (by rcases hst with h | h <;> simp [h])]

/-- Cache miss with a 2xx upstream response: the body is served as a MISS and
stored under the key. -/
lemma workerFetch_store {env : Env} {c : Cache} {req : WRequest} {st : Nat} {b : String}
    {U : String} (hk : keyOf req = some U) (hl : cacheMatch c U = none)
    (h1 : 200 ≤ st) (h2 : st ≤ 299) :
    ∃ cc, workerFetch env c req (.resp st b) =
      (handleCors req env { status := st, body := b, cacheControl := cc, xCache := some "MISS" },
       cachePut c U { status := st, body := b, cacheControl := cc }) := by
  obtain ⟨hm, hp, provider, upath, base, hparse, hbase, hU⟩ := keyOf_inv hk
  refine ⟨some ("public, max-age=" ++ Nat.repr ((cacheTtl provider).getD 300)), ?_⟩
  unfold workerFetch
  rw [if_neg hm, if_neg hp]
  simp only [hparse, hbase, ← hU, hl]
  rw [if_neg (by simp; omega)]

/-- A request without a cache key never changes the cache. -/
lemma workerFetch_nokey {env : Env} {c : Cache} {req : WRequest} {up : UpstreamResult}
    (h : keyOf req = none) : (workerFetch env c req up).2 = c := by
  unfold workerFetch
  by_cases h1 : (req.method == "OPTIONS") = true
  · rw [if_pos h1]
  · rw [if_neg h1]
    by_cases h2 : (req.path == "/" || req.path == "/health") = true
    · rw [if_pos h2]
    · rw [if_neg h2]
      cases hparse : parsePath req.path with
      | none => simp only [hparse]
      | some pr =>
        obtain ⟨provider, upath⟩ := pr
        cases hbase : upstreamBase provider with
        | none => simp only [hparse, hbase]
        | some base =>
          exfalso
          unfold keyOf at h
          rw [if_neg h1, if_neg h2] at h
          simp only [hparse, hbase] at h
          exact Option.noConfusion h

/-- One worker step preserves the all-entries-2xx cache invariant: the only
branch that stores is the 2xx miss branch. -/
lemma step_cacheOk {env : Env} {c : Cache} {req : WRequest} {up : UpstreamResult}
    (hok : cacheOk c) : cacheOk (workerFetch env c req up).2 := by
  cases hk : keyOf req with
  | none => rw [workerFetch_nokey hk]; exact hok
  | some U =>
    cases hl : cacheMatch c U with
    | some entry => rw [workerFetch_hit hk hl]; exact hok
    | none =>
      cases up with
      | netError msg => rw [workerFetch_neterr hk hl]; exact hok
      | resp st b =>
        by_cases hst : st < 200 ∨ 299 < st
        · rw [workerFetch_uperr hk hl hst]; exact hok
        · have hge : 200 ≤ st := by omega
          have hle : st ≤ 299 := by omega
          obtain ⟨cc, heq⟩ := @workerFetch_store env c req st b U hk hl hge hle
          rw [heq]
          intro kv hkv
          rcases List.mem_cons.mp hkv with h | h
          · subst h; exact ⟨hge, hle⟩
          · exact hok kv h

/-- If a cached entry is found, the response replays its 2xx status. -/
lemma hit_is2xx {env : Env} {c : Cache} {req : WRequest} {up : UpstreamResult}
    {U : String} {entry : CacheEntry}
    (hok : cacheOk c) (hk : keyOf req = some U) (hl : cacheMatch c U = some entry) :
    is2xx (workerFetch env c req up).1.status := by
  rw [workerFetch_hit hk hl]
  have := hok (U, entry) (cacheMatch_mem hl)
  simpa [handleCors_status] using this

/-- A step that is not a 2xx response for key `U` cannot make `U` cached. -/
lemma step_absent {env : Env} {c : Cache} {req : WRequest} {up : UpstreamResult}
    {U : String} (hok : cacheOk c) (habs : cacheMatch c U = none)
    (hns : keyOf req = some U → ¬ is2xx (workerFetch env c req up).1.status) :
    cacheMatch (workerFetch env c req up).2 U = none := by
  cases hk : keyOf req with
  | none => rw [workerFetch_nokey hk]; exact habs
  | some V =>
    by_cases hUV : V = U
    · subst hUV
      cases hl : cacheMatch c V with
      | some entry => exact absurd (hit_is2xx hok hk hl) (hns hk)
      | none =>
        cases up with
        | netError msg => rw [workerFetch_neterr hk hl]; exact habs
        | resp st b =>
          by_cases hst : st < 200 ∨ 299 < st
          · rw [workerFetch_uperr hk hl hst]; exact habs
          · exfalso
            have hge : 200 ≤ st := by omega
            have hle : st ≤ 299 := by omega
            obtain ⟨cc, heq⟩ := @workerFetch_store env c req st b V hk hl hge hle
            apply hns hk
            rw [heq]
            simpa [handleCors_status, is2xx] using ⟨hge, hle⟩
    · cases hl : cacheMatch c V with
      | some entry => rw [workerFetch_hit hk hl]; exact habs
      | none =>
        cases up with
        | netError msg => rw [workerFetch_neterr hk hl]; exact habs
        | resp st b =>
          by_cases hst : st < 200 ∨ 299 < st
          · rw [workerFetch_uperr hk hl hst]; exact habs
          · have hge : 200 ≤ st := by omega
            have hle : st ≤ 299 := by omega
            obtain ⟨cc, heq⟩ := @workerFetch_store env c req st b V hk hl hge hle
            rw [heq]
            rw [cacheMatch_put_other _ _ _ _ hUV]
            exact habs

/-- A request for an uncached key is never answered `X-Cache: HIT`. -/
lemma step_not_hit {env : Env} {c : Cache} {req : WRequest} {up : UpstreamResult}
    {U : String} (habs : cacheMatch c U = none) (hk : keyOf req = some U) :
    (workerFetch env c req up).1.xCache ≠ some "HIT" := by
  cases up with
  | netError msg => rw [workerFetch_neterr hk habs]; simp [handleCors_xCache]
  | resp st b =>
    by_cases hst : st < 200 ∨ 299 < st
    · rw [workerFetch_uperr hk habs hst]; simp [handleCors_xCache]
    · have hge : 200 ≤ st := by omega
      have hle : st ≤ 299 := by omega
      obtain ⟨cc, heq⟩ := @workerFetch_store env c req st b U hk habs hge hle
      rw [heq]
      simp [handleCors_xCache]

/-- Along a run with no 2xx response for `U`, key `U` stays uncached. -/
lemma run_absent {env : Env} {U : String} :
    ∀ {steps : List (WRequest × UpstreamResult)} {c : Cache},
      cacheOk c → cacheMatch c U = none → noSuccessFor env U c steps →
      cacheMatch (execCache env c steps) U = none := by
  intro steps
  induction steps with
  | nil => intro c _ habs _; exact habs
  | cons s rest ih =>
    intro c hok habs hns
    obtain ⟨hhead, htail⟩ := hns
    exact ih (step_cacheOk hok) (step_absent hok habs hhead) htail

/-- `cacheOk` is also preserved along whole runs. -/
lemma run_cacheOk {env : Env} :
    ∀ {steps : List (WRequest × UpstreamResult)} {c : Cache},
      cacheOk c → cacheOk (execCache env c steps) := by
  intro steps
  induction steps with
  | nil => intro c h; exact h
  | cons s rest ih => intro c h; exact ih (step_cacheOk h)

/-! ### Concrete requests reused across evaluations -/

/-- The deployed `ALLOWED_ORIGINS` value documented in `wrangler.toml`. -/
def demoEnv : Env := ⟨some "https://nicklaude.github.io,http://localhost:5173"⟩

/-- A RainViewer tile request through the proxy. -/
def demoTileReq : WRequest :=
  ⟨"GET", "/rainviewer/v2/radar/1700000000/256/5/9/11/2/1_1.png", "", none, none⟩

/-- The upstream URL `demoTileReq` resolves to (its edge-cache key). -/
def demoTileKey : String :=
  "https://tilecache.rainviewer.com/v2/radar/1700000000/256/5/9/11/2/1_1.png"

/-- An IEM tile request through the proxy. -/
def demoIemReq : WRequest :=
  ⟨"GET", "/iem/cache/tile.py/1.0.0/ridge::BOX-N0Q-0/5/9/11.png", "",
   some "https://nicklaude.github.io", none⟩

/-- The upstream URL `demoIemReq` resolves to. -/
def demoIemKey : String :=
  "https://mesonet.agron.iastate.edu/cache/tile.py/1.0.0/ridge::BOX-N0Q-0/5/9/11.png"

/-- C1 counterexample: on a 404 upstream response the proxy forwards the
status and stores nothing, but the body is NOT passed through unmodified: it
is replaced by the synthetic text `Upstream error: 404`.  This refutes the
claim that the upstream body is passed through. -/
theorem upstream_error_body_replaced_cex :
    (workerFetch demoEnv [] demoTileReq (.resp 404 "original-tile-bytes")).1.status = 404
    ∧ (workerFetch demoEnv [] demoTileReq (.resp 404 "original-tile-bytes")).1.body
        = "Upstream error: 404"
    ∧ (workerFetch demoEnv [] demoTileReq (.resp 404 "original-tile-bytes")).1.body
        ≠ "original-tile-bytes"
    ∧ (workerFetch demoEnv [] demoTileReq (.resp 404 "original-tile-bytes")).2 = [] := by
  refine ⟨?_, ?_, ?_, ?_⟩ <;> decide

/-- C1 (amended): for every proxied request whose upstream fetch completes
with a non-2xx status on a cache miss, the proxy forwards the same status
code and stores nothing in the edge cache, but serves a synthetic body
`Upstream error: <status>` in place of the upstream body. -/
theorem upstream_error_passthrough_amended
    (env : Env) (c : Cache) (req : WRequest) (U : String) (st : Nat) (b : String)
    (hk : keyOf req = some U) (hl : cacheMatch c U = none)
    (hst : st < 200 ∨ 299 < st) :
    (workerFetch env c req (.resp st b)).1.status = st
    ∧ (workerFetch env c req (.resp st b)).1.body = "Upstream error: " ++ Nat.repr st
    ∧ (workerFetch env c req (.resp st b)).2 = c := by
  rw [workerFetch_uperr hk hl hst]
  exact ⟨handleCors_status .., handleCors_body .., rfl⟩

/-- Witness for `upstream_error_passthrough_amended` at a concrete 503. -/
theorem upstream_error_passthrough_amended_w :
    keyOf demoIemReq = some demoIemKey
    ∧ cacheMatch [] demoIemKey = none
    ∧ ((workerFetch demoEnv [] demoIemReq (.resp 503 "overloaded")).1.status = 503
       ∧ (workerFetch demoEnv [] demoIemReq (.resp 503 "overloaded")).1.body
           = "Upstream error: " ++ Nat.repr 503
       ∧ (workerFetch demoEnv [] demoIemReq (.resp 503 "overloaded")).2 = []) :=
  ⟨by decide, by decide,
   upstream_error_passthrough_amended demoEnv [] demoIemReq demoIemKey 503 "overloaded"
     (by decide) (by decide) (Or.inr (by decide))⟩

/-- C2: cache correctness of the edge proxy.
Part 1: after a 2xx response for cache key `U`, an immediately following
request for `U` is served `X-Cache: HIT` with a byte-identical body.
Part 2: after a non-2xx response for `U`, as long as no subsequent step
produces a 2xx response for `U`, no request for `U` is served a HIT (only
successful responses are ever stored). -/
theorem edge_cache_correctness :
    (∀ (env : Env) (c : Cache) (req1 req2 : WRequest) (up1 up2 : UpstreamResult) (U : String),
       keyOf req1 = some U → keyOf req2 = some U →
       is2xx (workerFetch env c req1 up1).1.status →
       (workerFetch env (workerFetch env c req1 up1).2 req2 up2).1.xCache = some "HIT"
       ∧ (workerFetch env (workerFetch env c req1 up1).2 req2 up2).1.body
           = (workerFetch env c req1 up1).1.body)
    ∧ (∀ (env : Env) (c0 : Cache) (U : String) (reqI : WRequest) (upI : UpstreamResult)
         (mid : List (WRequest × UpstreamResult)) (reqJ : WRequest) (upJ : UpstreamResult),
       cacheOk c0 → keyOf reqI = some U →
       ¬ is2xx (workerFetch env c0 reqI upI).1.status →
       noSuccessFor env U (workerFetch env c0 reqI upI).2 mid →
       keyOf reqJ = some U →
       (workerFetch env (execCache env (workerFetch env c0 reqI upI).2 mid) reqJ upJ).1.xCache
         ≠ some "HIT") := by
  constructor
  · intro env c req1 req2 up1 up2 U hk1 hk2 h2xx
    cases hl : cacheMatch c U with
    | some entry =>
      have he1 := @workerFetch_hit env c req1 up1 U entry hk1 hl
      have hc1 : (workerFetch env c req1 up1).2 = c := by rw [he1]
      have hb1 : (workerFetch env c req1 up1).1.body = entry.body := by
        rw [he1]; exact handleCors_body ..
      rw [hc1, hb1, workerFetch_hit hk2 hl]
      exact ⟨handleCors_xCache .., handleCors_body ..⟩
    | none =>
      cases up1 with
      | netError msg =>
        exfalso
        rw [workerFetch_neterr hk1 hl] at h2xx
        dsimp only at h2xx
        rw [handleCors_status] at h2xx
        dsimp only at h2xx
        exact absurd h2xx (by decide)
      | resp st b =>
        by_cases hst : st < 200 ∨ 299 < st
        · exfalso
          rw [workerFetch_uperr hk1 hl hst] at h2xx
          dsimp only at h2xx
          rw [handleCors_status] at h2xx
          dsimp only at h2xx
          obtain ⟨hge, hle⟩ := h2xx
          omega
        · have hge : 200 ≤ st := by omega
          have hle : st ≤ 299 := by omega
          obtain ⟨cc, heq⟩ := @workerFetch_store env c req1 st b U hk1 hl hge hle
          have hc1 : (workerFetch env c req1 (.resp st b)).2 = cachePut c U ⟨st, b, cc⟩ := by
            rw [heq]
          have hb1 : (workerFetch env c req1 (.resp st b)).1.body = b := by
            rw [heq]; exact handleCors_body ..
          rw [hc1, hb1, workerFetch_hit hk2 (cacheMatch_put_self c U ⟨st, b, cc⟩)]
          exact ⟨handleCors_xCache .., handleCors_body ..⟩
  · intro env c0 U reqI upI mid reqJ upJ hok hkI hnsI hmid hkJ
    have habs0 : cacheMatch c0 U = none := by
      cases hl : cacheMatch c0 U with
      | none => rfl
      | some entry => exact absurd (hit_is2xx hok hkI hl) hnsI
    have habsI : cacheMatch (workerFetch env c0 reqI upI).2 U = none :=
      step_absent hok habs0 (fun _ => hnsI)
    have habsJ : cacheMatch (execCache env (workerFetch env c0 reqI upI).2 mid) U = none :=
      run_absent (step_cacheOk hok) habsI hmid
    exact step_not_hit habsJ hkJ

/-- Witness for `edge_cache_correctness`: a concrete immediate HIT after a
200 MISS, and a concrete non-HIT after a 404 with nothing in between. -/
theorem edge_cache_correctness_w :
    (keyOf demoTileReq = some demoTileKey
     ∧ is2xx (workerFetch demoEnv [] demoTileReq (.resp 200 "tile-bytes")).1.status
     ∧ (workerFetch demoEnv (workerFetch demoEnv [] demoTileReq (.resp 200 "tile-bytes")).2
          demoTileReq (.resp 500 "later")).1.xCache = some "HIT"
     ∧ (workerFetch demoEnv (workerFetch demoEnv [] demoTileReq (.resp 200 "tile-bytes")).2
          demoTileReq (.resp 500 "later")).1.body
         = (workerFetch demoEnv [] demoTileReq (.resp 200 "tile-bytes")).1.body)
    ∧ (cacheOk ([] : Cache)
       ∧ ¬ is2xx (workerFetch demoEnv [] demoIemReq (.resp 404 "nope")).1.status
       ∧ (workerFetch demoEnv
            (execCache demoEnv (workerFetch demoEnv [] demoIemReq (.resp 404 "nope")).2 [])
            demoIemReq (.resp 200 "fresh")).1.xCache ≠ some "HIT") := by
  refine ⟨⟨by decide, by decide, ?_⟩, ⟨?_, by decide, ?_⟩⟩
  · exact edge_cache_correctness.1 demoEnv [] demoTileReq demoTileReq
      (.resp 200 "tile-bytes") (.resp 500 "later") demoTileKey
      (by decide) (by decide) (by decide)
  · intro kv hkv; cases hkv
  · exact edge_cache_correctness.2 demoEnv [] demoIemKey demoIemReq (.resp 404 "nope") []
      demoIemReq (.resp 200 "fresh") (fun kv hkv => by cases hkv)
      (by decide) (by decide) trivial (by decide)

/-! ### CORS analysis -/

/-- The `Access-Control-Allow-Origin` value `handleCors` computes when the
wrapped response carries none of its own. -/
def corsAcaoOf (env : Env) (req : WRequest) : Option String :=
  let origin := req.origin.getD ""
  let isAllowed : Bool :=
    (origin == "") || (allowListOf env).any (fun allowed => startsWithStr origin (trimString allowed))
  if isAllowed && (origin != "") then some origin
  else if origin == "" then some "*"
  else none

lemma handleCors_acao_none {req : WRequest} {env : Env} {r : WResponse}
    (h : r.acao = none) : (handleCors req env r).acao = corsAcaoOf env req := by
  unfold handleCors corsAcaoOf
  simp only [h]

/-- Every response the worker produces gets its `Access-Control-Allow-Origin`
from `corsAcaoOf` (every branch wraps a header-free response in
`handleCors`). -/
lemma workerFetch_acao (env : Env) (c : Cache) (req : WRequest) (up : UpstreamResult) :
    (workerFetch env c req up).1.acao = corsAcaoOf env req := by
  unfold workerFetch
  split
  all_goals try dsimp only
  all_goals try split
  all_goals try dsimp only
  all_goals try split
  all_goals try dsimp only
  all_goals try split
  all_goals try dsimp only
  all_goals try split
  all_goals try dsimp only
  all_goals try split
  all_goals try dsimp only
  all_goals try split
  all_goals try dsimp only
  all_goals exact handleCors_acao_none rfl

/-- C7 counterexample: with the deployed allow-list, an origin that merely
extends an allow-list entry as a string prefix — and is not itself in the
list — still receives `Access-Control-Allow-Origin` echoing it, because
`handleCors` uses `startsWith`, not list membership. -/
theorem cors_prefix_cex :
    (workerFetch demoEnv []
        ⟨"GET", "/rainviewer/v2/radar/1700000000/256/5/9/11/2/1_1.png", "",
         some "https://nicklaude.github.io.evil.example", none⟩
        (.resp 200 "b")).1.acao = some "https://nicklaude.github.io.evil.example"
    ∧ "https://nicklaude.github.io.evil.example" ∉ (allowListOf demoEnv).map trimString := by
  refine ⟨?_, ?_⟩ <;> decide

/-- C7 (amended): requests with no `Origin` header get a wildcard
`Access-Control-Allow-Origin`; requests with a non-empty origin get the
origin echoed exactly when some trimmed allow-list entry is a string prefix
of it, and no `Access-Control-Allow-Origin` header otherwise. -/
theorem cors_allow_origin_amended (env : Env) (c : Cache) (req : WRequest) (up : UpstreamResult) :
    (req.origin.getD "" = "" → (workerFetch env c req up).1.acao = some "*")
    ∧ (∀ o, req.origin = some o → o ≠ "" →
        (((allowListOf env).any (fun allowed => startsWithStr o (trimString allowed))) = true →
          (workerFetch env c req up).1.acao = some o)
        ∧ (((allowListOf env).any (fun allowed => startsWithStr o (trimString allowed))) = false →
          (workerFetch env c req up).1.acao = none)) := by
  rw [workerFetch_acao]
  constructor
  · intro h0
    unfold corsAcaoOf
    simp [h0]
  · intro o ho hne
    constructor
    · intro hany
      unfold corsAcaoOf
      simp [ho, hany, hne]
    · intro hany
      unfold corsAcaoOf
      simp [ho, hany, hne]

/-- Witness for `cors_allow_origin_amended`: the wildcard case at a request
with no origin, and the echo case at the deployed allow-list. -/
theorem cors_allow_origin_amended_w :
    (demoTileReq.origin.getD "" = ""
     ∧ (workerFetch demoEnv [] demoTileReq (.resp 200 "b")).1.acao = some "*")
    ∧ (demoIemReq.origin = some "https://nicklaude.github.io"
       ∧ (allowListOf demoEnv).any
           (fun allowed => startsWithStr "https://nicklaude.github.io" (trimString allowed)) = true
       ∧ (workerFetch demoEnv [] demoIemReq (.resp 200 "b")).1.acao
           = some "https://nicklaude.github.io") :=
  ⟨⟨by decide, (cors_allow_origin_amended demoEnv [] demoTileReq (.resp 200 "b")).1 (by decide)⟩,
   ⟨by decide, by decide,
    ((cors_allow_origin_amended demoEnv [] demoIemReq (.resp 200 "b")).2
      "https://nicklaude.github.io" (by decide) (by decide)).1 (by decide)⟩⟩

/-! ### NOAA GOES image API client (`src/lib/goesApi.ts`) -/

/-- User-facing sector ids from `goesApi.ts`. -/
inductive Sector where
  | FD | CONUS | northeast | southeast | caribbean | puertorico
  | alaska | hawaii | pacificnw | pacificsw | greatlakes | uppermidwest
  | southernrockies | northernrockies | southernplains | mexico
deriving DecidableEq, Repr

/-- Image products from `goesApi.ts`. -/
inductive ImageType where
  | GEOCOLOR | Band02 | Band13 | Band14
deriving DecidableEq, Repr

/-- GOES satellites. -/
inductive Satellite where
  | GOES16 | GOES18 | GOES19
deriving DecidableEq, Repr

/-- Path layout of a sector on the NOAA CDN. -/
inductive PathType where
  | sector | direct
deriving DecidableEq, Repr

/-- Per-sector configuration (name/description fields of the source are
display-only and irrelevant to every claim, so they are not modelled). -/
structure SectorInfo where
  satellite : Satellite
  pathSegment : String
  pathType : PathType
deriving DecidableEq, Repr

/-- The `SECTORS` table from `goesApi.ts`. -/
def sectorInfo : Sector → SectorInfo
  | .FD => ⟨.GOES19, "FD", .direct⟩
  | .CONUS => ⟨.GOES19, "CONUS", .direct⟩
  | .northeast => ⟨.GOES19, "ne", .sector⟩
  | .southeast => ⟨.GOES19, "se", .sector⟩
  | .caribbean => ⟨.GOES19, "car", .sector⟩
  | .puertorico => ⟨.GOES19, "pr", .sector⟩
  | .greatlakes => ⟨.GOES19, "cgl", .sector⟩
  | .uppermidwest => ⟨.GOES19, "umv", .sector⟩
  | .southernrockies => ⟨.GOES19, "sr", .sector⟩
  | .southernplains => ⟨.GOES19, "sp", .sector⟩
  | .mexico => ⟨.GOES19, "mex", .sector⟩
  | .alaska => ⟨.GOES18, "ak", .sector⟩
  | .hawaii => ⟨.GOES18, "hi", .sector⟩
  | .pacificnw => ⟨.GOES18, "pnw", .sector⟩
  | .pacificsw => ⟨.GOES18, "psw", .sector⟩
  | .northernrockies => ⟨.GOES18, "np", .sector⟩

def satName : Satellite → String
  | .GOES16 => "GOES16"
  | .GOES18 => "GOES18"
  | .GOES19 => "GOES19"

def imageTypeName : ImageType → String
  | .GEOCOLOR => "GEOCOLOR"
  | .Band02 => "Band02"
  | .Band13 => "Band13"
  | .Band14 => "Band14"

/-- `CDN_BASE` from `goesApi.ts`. -/
def cdnBase : String := "https://cdn.star.nesdis.noaa.gov"

/-- `getSectorPath`. -/
def getSectorPath (sector : Sector) : String :=
  let info := sectorInfo sector
  match info.pathType with
  | .direct => cdnBase ++ "/" ++ satName info.satellite ++ "/ABI/" ++ info.pathSegment
  | .sector => cdnBase ++ "/" ++ satName info.satellite ++ "/ABI/SECTOR/" ++ info.pathSegment

/-- `getLatestImageUrl`. -/
def getLatestImageUrl (sector : Sector) (imageType : ImageType) : String :=
  getSectorPath sector ++ "/" ++ imageTypeName imageType ++ "/latest.jpg"

/-- `getDirectoryUrl`. -/
def getDirectoryUrl (sector : Sector) (imageType : ImageType) : String :=
  getSectorPath sector ++ "/" ++ imageTypeName imageType ++ "/"

/-! #### Regex scanning over the directory listing

`fetchAvailableImages` matches the listing HTML against the global
case-insensitive patterns
`\d{11}_SAT-ABI-seg-TYPE-(\d+x\d+)\.jpg` and
`(\d{11})_SAT-ABI-seg-TYPE-RES\.jpg`.
The scanner below mirrors `String.prototype.matchAll`: it tries a match at
each position, emits non-overlapping matches left to right, and advances
past each match. -/

/-- Case-insensitive literal match (the `i` regex flag); returns the rest. -/
def matchLitCI : List Char → List Char → Option (List Char)
  | [], cs => some cs
  | _ :: _, [] => none
  | l :: ls, c :: cs => if l.toLower = c.toLower then matchLitCI ls cs else none

/-- Exactly `k` digit characters (`\d{k}`); returns them and the rest. -/
def takeDigits : Nat → List Char → Option (List Char × List Char)
  | 0, cs => some ([], cs)
  | _ + 1, [] => none
  | k + 1, c :: cs =>
    if c.isDigit then
      match takeDigits k cs with
      | some (ds, rest) => some (c :: ds, rest)
      | none => none
    else none

/-- Maximal digit run (`\d+`, possibly empty). -/
def digitsRun : List Char → List Char × List Char
  | [] => ([], [])
  | c :: cs =>
    if c.isDigit then
      let (ds, rest) := digitsRun cs
      (c :: ds, rest)
    else ([], c :: cs)

/-- One attempt of `\d{11}LIT(\d+x\d+)\.jpg` at the head of the input,
returning the captured resolution and the total matched length. -/
def tryResMatch (lit : List Char) (cs : List Char) : Option (String × Nat) :=
  match takeDigits 11 cs with
  | none => none
  | some (_, rest1) =>
    match matchLitCI lit rest1 with
    | none => none
    | some rest2 =>
      let (d1, rest3) := digitsRun rest2
      if d1.isEmpty then none
      else
        match rest3 with
        | [] => none
        | x :: rest4 =>
          if x.toLower = 'x' then
            let (d2, rest5) := digitsRun rest4
            if d2.isEmpty then none
            else
              match matchLitCI (String.data ".jpg") rest5 with
              | none => none
              | some _ =>
                some (String.mk (d1 ++ x :: d2),
                      11 + lit.length + d1.length + 1 + d2.length + 4)
          else none

/-- One attempt of `(\d{11})LIT` at the head of the input, returning the
captured timestamp and the total matched length. -/
def tryTsMatch (lit : List Char) (cs : List Char) : Option (String × Nat) :=
  match takeDigits 11 cs with
  | none => none
  | some (ts, rest1) =>
    match matchLitCI lit rest1 with
    | none => none
    | some _ => some (String.mk ts, 11 + lit.length)

/-- `matchAll`: scan left to right, advancing past each match (`fuel` bounds
the recursion; every successful match consumes at least one character). -/
def scanAux (f : List Char → Option (String × Nat)) : Nat → List Char → List String
  | 0, _ => []
  | _ + 1, [] => []
  | fuel + 1, c :: rest =>
    match f (c :: rest) with
    | some (a, n) => a :: scanAux f fuel (List.drop (n - 1) rest)
    | none => scanAux f fuel rest

def scanMatches (f : List Char → Option (String × Nat)) (cs : List Char) : List String :=
  scanAux f cs.length cs

/-- JS `Set` built from a list: keep first occurrences, in insertion order. -/
def dedupeAux (seen : List String) : List String → List String
  | [] => []
  | x :: xs => if seen.contains x then dedupeAux seen xs else x :: dedupeAux (x :: seen) xs

def dedupe (l : List String) : List String := dedupeAux [] l

/-- `parseInt(resolution.split('x')[0], 10)`: value of the leading digits. -/
def digitsToNat (ds : List Char) : Nat :=
  ds.foldl (fun acc c => acc * 10 + (c.toNat - Char.toNat '0')) 0

def resKey (s : String) : Nat := digitsToNat (s.data.takeWhile (fun c => c.isDigit))

/-- Lexicographic comparison on UTF code points, as JS default `sort()`. -/
def lexLe : List Char → List Char → Bool
  | [], _ => true
  | _ :: _, [] => false
  | a :: as, b :: bs => if a = b then lexLe as bs else decide (a < b)

def strLe (a b : String) : Bool := lexLe a.data b.data

/-- JS `Array.prototype.slice(-m)` (for `-0`, `slice` returns the whole
array). -/
def sliceNegLast (m : Nat) (l : List String) : List String :=
  if m = 0 then l else l.drop (l.length - m)

/-- Outcome of the directory-listing `fetch`: transport rejection, a non-OK
HTTP response, or the listing HTML. -/
inductive DirOutcome where
  | reject
  | httpError (status : Nat)
  | ok (html : String)
deriving DecidableEq, Repr

/-- The outcomes that enter the `catch` branch of `fetchAvailableImages`:
a network rejection, or a non-OK status (the code throws on `!response.ok`). -/
def isDirFailure : DirOutcome → Prop
  | .reject => True
  | .httpError _ => True
  | .ok _ => False

/-- The literal part of the resolution-discovery pattern, after `\d{11}`. -/
def resLitChars (sector : Sector) (imageType : ImageType) : List Char :=
  String.data ("_" ++ satName (sectorInfo sector).satellite ++ "-ABI-"
    ++ (sectorInfo sector).pathSegment ++ "-" ++ imageTypeName imageType ++ "-")

/-- The distinct resolutions found in the listing, in first-occurrence order. -/
def discoveredResolutions (sector : Sector) (imageType : ImageType) (html : String) :
    List String :=
  dedupe (scanMatches (tryResMatch (resLitChars sector imageType)) html.data)

/-- The resolution `fetchAvailableImages` picks: sort ascending by leading
pixel count, then take the entry ~60% of the way up
(`Math.min(Math.floor(len * 0.6), len - 1)`; `3 * len / 5` agrees with the
double-precision computation at every list length that can occur here). -/
def chosenResolution (sector : Sector) (imageType : ImageType) (html : String) : String :=
  let sortedRes := List.insertionSort (fun a b => resKey a ≤ resKey b)
    (discoveredResolutions sector imageType html)
  sortedRes.getD (min (3 * sortedRes.length / 5) (sortedRes.length - 1)) ""

/-- The literal part of the timestamp pattern, after `(\d{11})`. -/
def tsLitChars (sector : Sector) (imageType : ImageType) (resolution : String) : List Char :=
  String.data ("_" ++ satName (sectorInfo sector).satellite ++ "-ABI-"
    ++ (sectorInfo sector).pathSegment ++ "-" ++ imageTypeName imageType ++ "-"
    ++ resolution ++ ".jpg")

/-- The timestamps `fetchAvailableImages` selects: distinct matches, sorted
ascending (JS default lexicographic `sort()`, oldest first), most recent
`maxImages` kept. -/
def selectedTimestamps (sector : Sector) (imageType : ImageType) (maxImages : Nat)
    (html : String) : List String :=
  sliceNegLast maxImages
    (List.insertionSort (fun a b => strLe a b = true)
      (dedupe (scanMatches
        (tryTsMatch (tsLitChars sector imageType (chosenResolution sector imageType html)))
        html.data)))

/-- The full image URL for a selected timestamp. -/
def imageUrlFor (sector : Sector) (imageType : ImageType) (resolution ts : String) : String :=
  getDirectoryUrl sector imageType ++ ts ++ "_" ++ satName (sectorInfo sector).satellite
    ++ "-ABI-" ++ (sectorInfo sector).pathSegment ++ "-" ++ imageTypeName imageType
    ++ "-" ++ resolution ++ ".jpg"

/-- `fetchAvailableImages` from `src/lib/goesApi.ts`, with the directory
fetch's outcome passed explicitly.  Failure outcomes enter the `catch` branch
and fall back to the latest-image URL; an OK response is scanned for
resolutions and timestamps as in the source. -/
def fetchAvailableImages (sector : Sector) (imageType : ImageType) (maxImages : Nat)
    (outcome : DirOutcome) : List String :=
  match outcome with
  | .reject => [getLatestImageUrl sector imageType]
  | .httpError _ => [getLatestImageUrl sector imageType]
  | .ok html =>
    if (discoveredResolutions sector imageType html).isEmpty then []
    else
      (selectedTimestamps sector imageType maxImages html).map
        (imageUrlFor sector imageType (chosenResolution sector imageType html))

/-! ### Ordering facts about the scanner pipeline -/

lemma lexLe_total : ∀ as bs : List Char, lexLe as bs = true ∨ lexLe bs as = true := by
  intro as
  induction as with
  | nil => intro bs; left; rfl
  | cons a as ih =>
    intro bs
    cases bs with
    | nil => right; rfl
    | cons b bs =>
      by_cases hab : a = b
      · subst hab
        rcases ih bs with h | h
        · left; simpa [lexLe] using h
        · right; simpa [lexLe] using h
      · rcases lt_or_gt_of_ne hab with h | h
        · left; simp [lexLe, hab, h]
        · right; simp [lexLe, Ne.symm hab, h]

lemma lexLe_trans : ∀ as bs cs : List Char,
    lexLe as bs = true → lexLe bs cs = true → lexLe as cs = true := by
  intro as
  induction as with
  | nil => intro bs cs _ _; rfl
  | cons a as ih =>
    intro bs cs hab hbc
    cases bs with
    | nil => simp [lexLe] at hab
    | cons b bs =>
      cases cs with
      | nil => simp [lexLe] at hbc
      | cons c cs =>
        by_cases h1 : a = b
        · subst h1
          by_cases h2 : a = c
          · subst h2
            have hab' : lexLe as bs = true := by simpa [lexLe] using hab
            have hbc' : lexLe bs cs = true := by simpa [lexLe] using hbc
            simpa [lexLe] using ih bs cs hab' hbc'
          · have hac : a < c := by simpa [lexLe, h2] using hbc
            simp [lexLe, h2, hac]
        · have hab' : a < b := by simpa [lexLe, h1] using hab
          by_cases h2 : b = c
          · subst h2
            simp [lexLe, h1, hab']
          · have hbc' : b < c := by simpa [lexLe, h2] using hbc
            have hac : a < c := lt_trans hab' hbc'
            simp [lexLe, ne_of_lt hac, hac]

instance strLeIsTotal : IsTotal String (fun a b => strLe a b = true) :=
  ⟨fun a b => lexLe_total a.data b.data⟩

instance strLeIsTrans : IsTrans String (fun a b => strLe a b = true) :=
  ⟨fun a b c => lexLe_trans a.data b.data c.data⟩

lemma sliceNegLast_sorted {r : String → String → Prop} {l : List String}
    (h : List.Sorted r l) (m : Nat) : List.Sorted r (sliceNegLast m l) := by
  unfold sliceNegLast
  split
  · exact h
  · exact List.Pairwise.sublist (List.drop_sublist _ _) h

/-- The selected timestamps are sorted ascending: oldest first. -/
lemma selectedTimestamps_sorted (sector : Sector) (imageType : ImageType)
    (maxImages : Nat) (html : String) :
    List.Sorted (fun a b => strLe a b = true)
      (selectedTimestamps sector imageType maxImages html) := by
  unfold selectedTimestamps
  exact sliceNegLast_sorted (List.sorted_insertionSort _ _) _

/-! ### The loop-loading hook (`useWeatherLoop.ts`) -/

/-- The hook state of `useWeatherLoop` (the cache statistics it also tracks
play no role in any claim and are not modelled). -/
structure LoopState where
  frames : List String
  currentFrame : Nat
  isPlaying : Bool
  isLoading : Bool
  loadingProgress : ℚ
  error : Option String
  sector : Sector
  imageType : ImageType
deriving DecidableEq, Repr

/-- The unconditional updates at the top of `loadFrames`: show the loading
state, clear any error, reset progress, clear the frame list and reset the
frame index. -/
def startLoad (s : LoopState) : LoopState :=
  { s with isLoading := true, error := none, loadingProgress := 0,
           frames := [], currentFrame := 0 }

/-- `setSector` followed by the effect that re-runs `loadFrames`: record the
new sector, pause playback, and perform `loadFrames`' initial updates. -/
def sectorSwitch (newSector : Sector) (s : LoopState) : LoopState :=
  startLoad { s with sector := newSector, isPlaying := false }

/-- The body of `loadFrames`' for-loop: each URL is dispatched through
`fetchAndCacheImage` (`f url = some objectUrl` on success, `none` when the
fetch throws); a success appends the object URL to the frame list and updates
the progress to `((i + 1) / total) * 100`; a failure only logs.  Returns the
final state and the dispatched URLs in dispatch order. -/
def loadLoop (n : Nat) (f : String → Option String) :
    LoopState → List String → Nat → LoopState × List String
  | s, [], _ => (s, [])
  | s, url :: rest, i =>
    let s' :=
      match f url with
      | some obj =>
        { s with frames := s.frames ++ [obj],
                 loadingProgress := (((i : ℚ) + 1) / (n : ℚ)) * 100 }
      | none => s
    let next := loadLoop n f s' rest (i + 1)
    (next.1, url :: next.2)

/-- `loadFrames` from `useWeatherLoop.ts`: clear state, fetch the available
image URLs, fail with `No images available` when there are none, otherwise
load each URL in order (frames shown progressively), fail with
`No frames could be loaded` when every load failed, and finally clear the
loading flag.  Returns the final state and the dispatched fetch URLs. -/
def loadFramesRun (s0 : LoopState) (maxImages : Nat) (dir : DirOutcome)
    (f : String → Option String) : LoopState × List String :=
  let imageUrls := fetchAvailableImages s0.sector s0.imageType maxImages dir
  if imageUrls.isEmpty then
    ({ startLoad s0 with error := some "No images available", isLoading := false }, [])
  else
    let res := loadLoop imageUrls.length f (startLoad s0) imageUrls 0
    if res.1.frames.isEmpty then
      ({ res.1 with error := some "No frames could be loaded", isLoading := false }, res.2)
    else
      ({ res.1 with isLoading := false }, res.2)

lemma loadLoop_dispatches (n : Nat) (f : String → Option String) :
    ∀ (urls : List String) (s : LoopState) (i : Nat), (loadLoop n f s urls i).2 = urls := by
  intro urls
  induction urls with
  | nil => intro s i; rfl
  | cons url rest ih =>
    intro s i
    unfold loadLoop
    simp [ih]

lemma loadLoop_frames (n : Nat) (f : String → Option String) :
    ∀ (urls : List String) (s : LoopState) (i : Nat),
      (loadLoop n f s urls i).1.frames = s.frames ++ urls.filterMap f := by
  intro urls
  induction urls with
  | nil => intro s i; simp [loadLoop]
  | cons url rest ih =>
    intro s i
    unfold loadLoop
    cases hf : f url with
    | some obj => simp [hf, ih, List.filterMap_cons]
    | none => simp [hf, ih, List.filterMap_cons]

/-- The dispatch order of a load run is exactly the fetched URL list. -/
lemma loadFramesRun_dispatches (s0 : LoopState) (maxImages : Nat) (dir : DirOutcome)
    (f : String → Option String) :
    (loadFramesRun s0 maxImages dir f).2
      = fetchAvailableImages s0.sector s0.imageType maxImages dir := by
  unfold loadFramesRun
  by_cases he : (fetchAvailableImages s0.sector s0.imageType maxImages dir).isEmpty
  · rw [if_pos he]
    exact (List.isEmpty_iff.mp he).symm
  · rw [if_neg he]
    dsimp only
    split <;> simp [loadLoop_dispatches]

/-- C10: when the directory-listing fetch fails (network rejection or non-OK
HTTP status), `fetchAvailableImages` resolves without throwing to exactly one
URL: the sector's latest-image URL (`.../latest.jpg`). -/
theorem dir_fetch_fallback_latest (sector : Sector) (imageType : ImageType)
    (maxImages : Nat) (o : DirOutcome) (h : isDirFailure o) :
    fetchAvailableImages sector imageType maxImages o = [getLatestImageUrl sector imageType]
    ∧ (fetchAvailableImages sector imageType maxImages o).length = 1 := by
  cases o with
  | reject => exact ⟨rfl, rfl⟩
  | httpError st => exact ⟨rfl, rfl⟩
  | ok html => exact h.elim

/-- Witness for `dir_fetch_fallback_latest` at a concrete failing fetch. -/
theorem dir_fetch_fallback_latest_w :
    isDirFailure .reject
    ∧ (fetchAvailableImages .northeast .GEOCOLOR 24 .reject
         = [getLatestImageUrl .northeast .GEOCOLOR]
       ∧ (fetchAvailableImages .northeast .GEOCOLOR 24 .reject).length = 1) :=
  ⟨trivial, dir_fetch_fallback_latest .northeast .GEOCOLOR 24 .reject trivial⟩

/-- A directory listing with two timestamps of the same sector/type at one
resolution, oldest (`…1000`) first in time. -/
def demoHtml : String :=
  "20250011000_GOES19-ABI-ne-GEOCOLOR-600x600.jpg 20250011010_GOES19-ABI-ne-GEOCOLOR-600x600.jpg"

/-- A loop state for the northeast GeoColor sector. -/
def demoLoop : LoopState := ⟨[], 0, false, false, 0, none, .northeast, .GEOCOLOR⟩

/-- C4 counterexample: with two available frames f0 (oldest, `…1000`) and
fN (newest, `…1010`), the first dispatched request of the loading process is
f0's URL — the OLDEST frame — not fN's, refuting the claimed newest-first
dispatch order. -/
theorem prefetch_order_cex :
    (loadFramesRun demoLoop 24 (.ok demoHtml) (fun u => some u)).2
      = fetchAvailableImages .northeast .GEOCOLOR 24 (.ok demoHtml)
    ∧ (fetchAvailableImages .northeast .GEOCOLOR 24 (.ok demoHtml)).length = 2
    ∧ (fetchAvailableImages .northeast .GEOCOLOR 24 (.ok demoHtml)).get? 0
        = some (imageUrlFor .northeast .GEOCOLOR "600x600" "20250011000")
    ∧ (fetchAvailableImages .northeast .GEOCOLOR 24 (.ok demoHtml)).get? 1
        = some (imageUrlFor .northeast .GEOCOLOR "600x600" "20250011010")
    ∧ (loadFramesRun demoLoop 24 (.ok demoHtml) (fun u => some u)).2.head?
        ≠ some (imageUrlFor .northeast .GEOCOLOR "600x600" "20250011010") := by
  refine ⟨?_, ?_, ?_, ?_, ?_⟩ <;> decide

/-- C4 (amended): the loading process dispatches the frame URLs in exactly
the order `fetchAvailableImages` returns them, and that order is ascending
in timestamp — OLDEST first — so the first dispatched request belongs to f0,
not fN. -/
theorem prefetch_order_amended (sector : Sector) (imageType : ImageType)
    (maxImages : Nat) (html : String) (s : LoopState) (d : DirOutcome)
    (f : String → Option String) :
    List.Sorted (fun a b => strLe a b = true)
      (selectedTimestamps sector imageType maxImages html)
    ∧ (loadFramesRun s maxImages d f).2
        = fetchAvailableImages s.sector s.imageType maxImages d
    ∧ fetchAvailableImages sector imageType maxImages (.ok html)
        = if (discoveredResolutions sector imageType html).isEmpty then []
          else (selectedTimestamps sector imageType maxImages html).map
            (imageUrlFor sector imageType (chosenResolution sector imageType html)) :=
  ⟨selectedTimestamps_sorted sector imageType maxImages html,
   loadFramesRun_dispatches s maxImages d f, rfl⟩

/-- C9 counterexample: a listing with no matching images yields zero frames,
and the loading job then finishes with the error `No images available` and
0% progress — not with 100% progress and no error as claimed. -/
theorem zero_frames_error_cex :
    fetchAvailableImages .northeast .GEOCOLOR 24 (.ok "") = []
    ∧ (loadFramesRun demoLoop 24 (.ok "") (fun u => some u)).1.error
        = some "No images available"
    ∧ (loadFramesRun demoLoop 24 (.ok "") (fun u => some u)).1.loadingProgress = 0
    ∧ (loadFramesRun demoLoop 24 (.ok "") (fun u => some u)).1.isLoading = false
    ∧ ¬ ((loadFramesRun demoLoop 24 (.ok "") (fun u => some u)).1.error = none
         ∧ (loadFramesRun demoLoop 24 (.ok "") (fun u => some u)).1.loadingProgress = 100) := by
  refine ⟨?_, ?_, ?_, ?_, ?_⟩ <;> decide

/-- C9 (amended): a loading job that finds zero available images completes
immediately — no URL is dispatched — reporting the error
`No images available` and progress 0, not a clean 100%. -/
theorem zero_frames_amended (s : LoopState) (m : Nat) (d : DirOutcome)
    (f : String → Option String)
    (h : fetchAvailableImages s.sector s.imageType m d = []) :
    (loadFramesRun s m d f).1.error = some "No images available"
    ∧ (loadFramesRun s m d f).1.loadingProgress = 0
    ∧ (loadFramesRun s m d f).1.isLoading = false
    ∧ (loadFramesRun s m d f).1.frames = []
    ∧ (loadFramesRun s m d f).2 = [] := by
  unfold loadFramesRun
  rw [h]
  exact ⟨rfl, rfl, rfl, rfl, rfl⟩

/-- Witness for `zero_frames_amended` at an empty directory listing. -/
theorem zero_frames_amended_w :
    fetchAvailableImages demoLoop.sector demoLoop.imageType 24 (.ok "") = []
    ∧ ((loadFramesRun demoLoop 24 (.ok "") (fun u => some u)).1.error
         = some "No images available"
       ∧ (loadFramesRun demoLoop 24 (.ok "") (fun u => some u)).1.loadingProgress = 0
       ∧ (loadFramesRun demoLoop 24 (.ok "") (fun u => some u)).1.isLoading = false
       ∧ (loadFramesRun demoLoop 24 (.ok "") (fun u => some u)).1.frames = []
       ∧ (loadFramesRun demoLoop 24 (.ok "") (fun u => some u)).2 = []) :=
  ⟨by decide, zero_frames_amended demoLoop 24 (.ok "") (fun u => some u) (by decide)⟩

/-- A loop state currently displaying two loaded frames. -/
def demoLoaded : LoopState :=
  ⟨["frameA", "frameB"], 1, true, false, 100, none, .northeast, .GEOCOLOR⟩

/-- C8 counterexample: switching the sector runs `loadFrames`, whose first
updates clear the frame list (`setFrames([])`) and reset the index — the
display IS emptied to a blank state during the switch, refuting the claim
that the frame list is never emptied. -/
theorem layer_switch_blank_cex :
    demoLoaded.frames ≠ []
    ∧ (sectorSwitch .CONUS demoLoaded).frames = []
    ∧ (sectorSwitch .CONUS demoLoaded).currentFrame = 0 := by
  refine ⟨?_, ?_, ?_⟩ <;> decide

/-- C8 (amended): on a provider/layer switch the frame list is cleared to
empty and the index reset to 0 (so the display blanks rather than retaining
the last rendered frame); the list then repopulates progressively with
exactly the successfully loaded frames of the new target set. -/
theorem layer_switch_amended :
    (∀ (newSector : Sector) (s : LoopState),
       (sectorSwitch newSector s).frames = []
       ∧ (sectorSwitch newSector s).currentFrame = 0
       ∧ (sectorSwitch newSector s).isLoading = true
       ∧ (sectorSwitch newSector s).error = none
       ∧ (sectorSwitch newSector s).isPlaying = false
       ∧ (sectorSwitch newSector s).sector = newSector)
    ∧ (∀ (s : LoopState) (m : Nat) (d : DirOutcome) (f : String → Option String),
       (loadFramesRun s m d f).1.frames
         = (fetchAvailableImages s.sector s.imageType m d).filterMap f) := by
  constructor
  · intro newSector s
    exact ⟨rfl, rfl, rfl, rfl, rfl, rfl⟩
  · intro s m d f
    unfold loadFramesRun
    by_cases he : (fetchAvailableImages s.sector s.imageType m d).isEmpty
    · rw [if_pos he]
      rw [List.isEmpty_iff.mp he]
      simp [startLoad]
    · rw [if_neg he]
      dsimp only
      split <;> simp [loadLoop_frames, startLoad]

/-! ### Map view timestamp formatting and preloading (`MapView.tsx`) -/

/-- Gregorian calendar date (year, month, day) for a day count since
1970-01-01, as computed by JS `Date`'s UTC accessors (standard civil-from-days
algorithm; all quantities stay non-negative for epoch times). -/
def civilFromDays (days : Nat) : Nat × Nat × Nat :=
  let z := days + 719468
  let era := z / 146097
  let doe := z % 146097
  let yoe := (doe - doe / 1460 + doe / 36524 - doe / 146096) / 365
  let y := yoe + era * 400
  let doy := doe - (365 * yoe + yoe / 4 - yoe / 100)
  let mp := (5 * doy + 2) / 153
  let d := doy - (153 * mp + 2) / 5 + 1
  let m := if mp < 10 then mp + 3 else mp - 9
  (if m ≤ 2 then y + 1 else y, m, d)

/-- `String(n).padStart(2, '0')`. -/
def pad2 (n : Nat) : String := if n < 10 then "0" ++ Nat.repr n else Nat.repr n

/-- `Date.prototype.toISOString()` with the milliseconds stripped, for an
epoch-seconds instant (years here are four digits). -/
def isoUtc (t : Nat) : String :=
  let ymd := civilFromDays (t / 86400)
  Nat.repr ymd.1 ++ "-" ++ pad2 ymd.2.1 ++ "-" ++ pad2 ymd.2.2
    ++ "T" ++ pad2 (t % 86400 / 3600) ++ ":" ++ pad2 (t % 3600 / 60)
    ++ ":" ++ pad2 (t % 60) ++ "Z"

/-- `formatGibsTimestamp` from `MapView.tsx`: read the UTC minutes, floor
them to a 10-minute boundary, zero the seconds/milliseconds
(`date.setUTCMinutes(minutes, 0, 0)`), and render as ISO-8601. -/
def formatGibsTimestamp (unixTime : Nat) : String :=
  let minutes := unixTime / 60 % 60 / 10 * 10
  isoUtc (unixTime / 3600 * 3600 + minutes * 60)

/-- The KBOX timestamp built in `MapView.tsx`'s slider-sync effect:
`YYYYMMDDHHmm` from the raw UTC components — the minutes are NOT floored to
any cadence boundary. -/
def iemTimestamp (unixTime : Nat) : String :=
  let ymd := civilFromDays (unixTime / 86400)
  Nat.repr ymd.1 ++ pad2 ymd.2.1 ++ pad2 ymd.2.2
    ++ pad2 (unixTime % 86400 / 3600) ++ pad2 (unixTime % 3600 / 60)

/-- A RainViewer frame: unix time and tile-path fragment. -/
structure RVFrame where
  time : Nat
  path : String
deriving DecidableEq, Repr

/-- A slippy-map tile coordinate. -/
structure TileXYZ where
  x : Nat
  y : Nat
  z : Nat
deriving DecidableEq, Repr

/-- The concrete RainViewer tile URL built in the preload effect:
`https://tilecache.rainviewer.com${frame.path}/256/${z}/${x}/${y}/2/1_1.png`. -/
def preloadRainViewerUrl (f : RVFrame) (t : TileXYZ) : String :=
  "https://tilecache.rainviewer.com" ++ f.path ++ "/256/" ++ Nat.repr t.z
    ++ "/" ++ Nat.repr t.x ++ "/" ++ Nat.repr t.y ++ "/2/1_1.png"

/-- The URL list the RAIN-layer preload effect builds: for every radar frame,
every limited viewport tile, in nested-loop order. -/
def tilesToPreload (radarFrames : List RVFrame) (limitedTiles : List TileXYZ) : List String :=
  (radarFrames.map (fun fr => limitedTiles.map (fun t => preloadRainViewerUrl fr t))).flatten

/-- Dispatch instants of `preloadTileUrls`: `urls.forEach` creates an `Image`
and assigns `img.src` for EVERY url synchronously, so every request is
dispatched at the same instant (time 0), with no batching and no inter-batch
delay. -/
def dispatchTimes (urls : List String) : List Nat := urls.map (fun _ => 0)

/-- Number of dispatches inside the window `[start, start + len)` (ms). -/
def windowCount (times : List Nat) (start len : Nat) : Nat :=
  (times.filter (fun t => decide (start ≤ t) && decide (t < start + len))).length

/-- 16 radar frames at a 10-minute cadence (a RainViewer history window). -/
def demoRadarFrames : List RVFrame :=
  (List.range 16).map (fun i => ⟨1767222000 + 600 * i, "/v2/radar/" ++ Nat.repr (1767222000 + 600 * i)⟩)

/-- The 15 viewport tiles the preload effect limits itself to. -/
def demoViewportTiles : List TileXYZ :=
  (List.range 15).map (fun i => ⟨9 + i % 5, 11 + i / 5, 5⟩)

/-- C3: with 16 radar frames and 15 viewport tiles, the RAIN-layer preload
dispatches all 240 tile requests in one synchronous burst — a single
60-second window holds all 240, exceeding RainViewer's documented budget of
100 requests per 60 seconds.  This evaluates the code at the failing input
of the rate-budget claim. -/
theorem preload_rate_burst_eval :
    (tilesToPreload demoRadarFrames demoViewportTiles).length = 240
    ∧ windowCount (dispatchTimes (tilesToPreload demoRadarFrames demoViewportTiles)) 0 60000
        = 240
    ∧ 100 < windowCount (dispatchTimes (tilesToPreload demoRadarFrames demoViewportTiles))
        0 60000 := by
  refine ⟨?_, ?_, ?_⟩ <;> decide

/-- The radar tile-template URL the slider-sync effect passes to `setTiles`
on every committed frame index (`{z}/{x}/{y}` stay as placeholders). -/
def rainviewerFrameUrl (f : RVFrame) : String :=
  "https://tilecache.rainviewer.com" ++ f.path
    ++ "/256/\x7bz\x7d/\x7bx\x7d/\x7by\x7d/2/1_1.png"

/-- The `setTiles` trigger produced by one committed value of
`currentFrameIndex` (none when the index has no frame). -/
def radarUrlFor (radarFrames : List RVFrame) (idx : Nat) : Option String :=
  (radarFrames.get? idx).map rainviewerFrameUrl

/-- The downstream fetch triggers of a burst of direct frame-index sets: the
slider's `onChange` calls `setCurrentFrameIndex` directly and the tile-update
effect (dependency `currentFrameIndex`) runs after every committed set, so
each set yields its own `setTiles` trigger — there is no debounce anywhere on
this path. -/
def scrubTriggers (radarFrames : List RVFrame) (sets : List Nat) : List String :=
  sets.filterMap (radarUrlFor radarFrames)

/-- C5: a scrub storm of 10 successive index sets (0 … 9) produces TEN
downstream tile-fetch triggers — one per set, the last targeting index 9 —
not the single debounced trigger the claim describes.  This evaluates the
code at the failing input. -/
theorem scrub_storm_eval :
    (scrubTriggers demoRadarFrames (List.range 10)).length = 10
    ∧ (scrubTriggers demoRadarFrames (List.range 10)).length ≠ 1
    ∧ (scrubTriggers demoRadarFrames (List.range 10)).getLast?
        = radarUrlFor demoRadarFrames 9 := by
  refine ⟨?_, ?_, ?_⟩ <;> decide

/-- C6: the KBOX/IEM timestamp path does not quantize.  The instants
2026-01-01T00:01:00Z and 2026-01-01T00:03:00Z fall in the same 5-minute
bucket of the IEM provider, yet `iemTimestamp` renders them as different
upstream timestamps (raw minutes, not multiples of 5) — while
`formatGibsTimestamp` does floor the same instants to one shared 10-minute
boundary.  This evaluates the code at the failing input of the quantization
law. -/
theorem kbox_quantization_eval :
    (1767225660 / 300 : Nat) = 1767225780 / 300
    ∧ iemTimestamp 1767225660 = "202601010001"
    ∧ iemTimestamp 1767225780 = "202601010003"
    ∧ iemTimestamp 1767225660 ≠ iemTimestamp 1767225780
    ∧ formatGibsTimestamp 1767225660 = formatGibsTimestamp 1767225780
    ∧ formatGibsTimestamp 1767225660 = "2026-01-01T00:00:00Z" := by
  refine ⟨?_, ?_, ?_, ?_, ?_, ?_⟩ <;> decide
